import Mathlib

/-!
SoundView (plugins/dde-dock/sound/soundview.cpp)

A shallow embedding of the decision logic of the dock's volume indicator:
icon-name selection (`refreshIcon`), tooltip text (`refreshTips`), the context
menu (`contextMenu`, `invokeMenuItem`) and the aspect constraint set on resize
(`resizeEvent`).

Conventions of the embedding

* `SoundModel::ref()` and `SoundController::ref()` are read-only to the view;
  the four values it reads from them are the fields of `AudioState`.
* The widget is the record `SoundView`; every member function that changes the
  widget takes the record and returns the changed one.
* Commands sent to the outside (controller, desktop bus, host signal) are the
  values of `Effect`, in the order the code issues them.
* `double` values are binary64 values (`QDouble`): rationals, the two
  infinities and NaN.  A quotient and a decimal literal are the exact value
  rounded to the nearest binary64 value, ties to even (`QDouble.round`); the
  sign of a zero is not kept, no operation of the view depends on it.
* The diagnostic block of `refreshIcon` (theme lookup, directory scan,
  `qWarning` lines) changes nothing the view holds and is left out.
-/

namespace SoundViewSpec

/-! ## QString helpers -/

/-- Piece of a format string as `QString::arg` sees it: a plain character or a
place marker `%n` with one or two digits. -/
inductive ArgTok where
  | lit (c : Char)
  | marker (n : Nat)
deriving DecidableEq, Repr

/-- Scanner state while looking for place markers. -/
inductive ScanState where
  | plain
  | percent
  | digit (v : Nat)

/-- Value of a decimal digit character. -/
def digitValue (c : Char) : Nat := c.toNat - '0'.toNat

/-- Split a format string into plain characters and place markers.  A marker is
`%` followed by one or two decimal digits; a `%` not followed by a digit is a
plain character. -/
def argTokens : ScanState → List Char → List ArgTok
  | ScanState.plain, [] => []
  | ScanState.percent, [] => [ArgTok.lit '%']
  | ScanState.digit v, [] => [ArgTok.marker v]
  | ScanState.plain, c :: cs =>
    if c = '%' then argTokens ScanState.percent cs
    else ArgTok.lit c :: argTokens ScanState.plain cs
  | ScanState.percent, c :: cs =>
    if c.isDigit then argTokens (ScanState.digit (digitValue c)) cs
    else if c = '%' then ArgTok.lit '%' :: argTokens ScanState.percent cs
    else ArgTok.lit '%' :: ArgTok.lit c :: argTokens ScanState.plain cs
  | ScanState.digit v, c :: cs =>
    if c.isDigit then ArgTok.marker (10 * v + digitValue c) :: argTokens ScanState.plain cs
    else if c = '%' then ArgTok.marker v :: argTokens ScanState.percent cs
    else ArgTok.marker v :: ArgTok.lit c :: argTokens ScanState.plain cs

/-- Lowest place-marker number of a tokenised format string, if it has one. -/
def lowestMarker : List ArgTok → Option Nat
  | [] => none
  | ArgTok.lit _ :: ts => lowestMarker ts
  | ArgTok.marker n :: ts =>
    match lowestMarker ts with
    | none => some n
    | some k => some (min n k)

/-- Text of the marker `%n`, for markers that are not replaced. -/
def markerChars (n : Nat) : List Char := '%' :: (Nat.repr n).data

/-- Replace every marker numbered `k` by `a`, keep everything else. -/
def argSubst (k : Nat) (a : List Char) : List ArgTok → List Char
  | [] => []
  | ArgTok.lit c :: ts => c :: argSubst k a ts
  | ArgTok.marker n :: ts =>
    if n = k then a ++ argSubst k a ts else markerChars n ++ argSubst k a ts

/-- The call `fmt.arg(a)` of `QString`: every occurrence of the lowest-numbered
place marker of `fmt` is replaced by `a`; a string without a marker is returned
as it is.  The locale flag `%L1` and field widths are not used by the view and
are not modelled. -/
def qstringArg (fmt a : String) : String :=
  match lowestMarker (argTokens ScanState.plain fmt.data) with
  | none => fmt
  | some k => String.mk (argSubst k a.data (argTokens ScanState.plain fmt.data))

/-- The call `QString::number(n)` for an `int`: decimal digits, `-` in front of
a negative number. -/
def qstringNumber (n : Int) : String := toString n

/-- The call `tr(sourceText)` with no translation catalogue installed: the
source text itself.  Translation is outside the scope of the specification. -/
def tr (sourceText : String) : String := sourceText

/-! ## double arithmetic -/

/-- Nearest integer to `q`, a tie going to the even neighbour. -/
def roundHalfEven (q : ℚ) : Int :=
  if q - ⌊q⌋ < 1 / 2 then ⌊q⌋
  else if 1 / 2 < q - ⌊q⌋ then ⌊q⌋ + 1
  else if ⌊q⌋ % 2 = 0 then ⌊q⌋ else ⌊q⌋ + 1

/-- Binary exponent at which `q` is rounded: the exponent of its leading bit,
and -1022 throughout the subnormal range. -/
def roundExponent (q : ℚ) : Int := max (Int.log 2 |q|) (-1022)

/-- The value `q` rounded to 53 significant bits (to a multiple of 2^-1074 in
the subnormal range), ties to even, before the overflow test. -/
def roundBinary64 (q : ℚ) : ℚ :=
  (roundHalfEven (q * (2 : ℚ) ^ (52 - roundExponent q)) : ℚ) *
    (2 : ℚ) ^ (roundExponent q - 52)

/-- A `double`: a finite binary64 value held as a rational, an infinity or
NaN. -/
inductive QDouble where
  | finite (q : ℚ)
  | posInf
  | negInf
  | nan
deriving DecidableEq

namespace QDouble

/-- The binary64 value nearest to the real number `q`, ties to even; a result
of magnitude 2^1024 or more is an infinity. -/
def round (q : ℚ) : QDouble :=
  if (2 : ℚ) ^ 1024 ≤ roundBinary64 q then posInf
  else if roundBinary64 q ≤ -(2 : ℚ) ^ 1024 then negInf
  else finite (roundBinary64 q)

/-- Conversion `int` to `double`; every 32-bit `int` is a binary64 value, so
nothing is rounded. -/
def ofInt (n : Int) : QDouble := finite n

/-- Division of doubles: the exact quotient, rounded.  A finite non-zero value
divided by zero is an infinity with the sign of the dividend, `0 / 0` is NaN. -/
def div : QDouble → QDouble → QDouble
  | nan, _ => nan
  | _, nan => nan
  | finite a, finite b =>
    if b = 0 then (if 0 < a then posInf else if a < 0 then negInf else nan)
    else round (a / b)
  | finite _, posInf => finite 0
  | finite _, negInf => finite 0
  | posInf, finite b => if 0 ≤ b then posInf else negInf
  | negInf, finite b => if 0 ≤ b then negInf else posInf
  | posInf, posInf => nan
  | posInf, negInf => nan
  | negInf, posInf => nan
  | negInf, negInf => nan

/-- Comparison `x > t` of doubles; false whenever an operand is NaN. -/
def gt : QDouble → QDouble → Bool
  | nan, _ => false
  | _, nan => false
  | finite a, finite b => decide (b < a)
  | finite _, posInf => false
  | finite _, negInf => true
  | posInf, posInf => false
  | posInf, _ => true
  | negInf, _ => false

/-- The cast `int(x)`: truncation toward zero; not defined for infinities and
NaN. -/
def toInt : QDouble → Option Int
  | finite q => some (if 0 ≤ q then ⌊q⌋ else ⌈q⌉)
  | _ => none

end QDouble

/-! ## Data model -/

/-- Largest value of a C++ `int`, 2^31 - 1. -/
def INT_MAX : Int := 2147483647

/-- What the view reads from `SoundModel::ref()` and `SoundController::ref()`. -/
structure AudioState where
  /-- Value of `SoundModel::ref().volume()`. -/
  volume : Int
  /-- Value of `SoundModel::ref().maxVolumeUI()`.  The accessor is declared in
  `soundmodel.h`, which is not part of the sources; it is an `int` like
  `volume()`, which `refreshIcon` converts to `double` in the same way. -/
  maxVolumeUI : Int
  /-- Value of `SoundModel::ref().isMute()`. -/
  isMute : Bool
  /-- Value of `SoundController::ref().existActiveOutputDevice()`. -/
  existActiveOutputDevice : Bool
deriving DecidableEq, Repr

/-- The widget: tooltip label, icon button and the size constraints of the
widget itself. -/
structure SoundView where
  /-- Text of `m_tipsLabel`. -/
  tipsText : String
  /-- Value of `m_tipsLabel->isVisible()`. -/
  tipsVisible : Bool
  /-- Theme name of the icon set on `m_iconWidget`. -/
  icon : String
  /-- Value of `width()`. -/
  width : Int
  /-- Value of `height()`. -/
  height : Int
  /-- Value of `maximumWidth()`. -/
  maximumWidth : Int
  /-- Value of `maximumHeight()`. -/
  maximumHeight : Int
deriving DecidableEq, Repr

/-! ## Icon and tooltip refresh -/

/-- The local `mute` of `refreshIcon`. -/
def iconMute (s : AudioState) : Bool :=
  if !s.existActiveOutputDevice then true else s.isMute

/-- The local `volumeString` of `refreshIcon`: the icon category.  The
literals `0.6` and `0.3` are the doubles nearest to 3/5 and 3/10. -/
def volumeString (s : AudioState) : String :=
  let volume : QDouble := QDouble.ofInt s.volume
  let maxVolume : QDouble := QDouble.ofInt s.maxVolumeUI
  let mute : Bool := iconMute s
  if mute then "muted"
  else if volume.toInt = some 0 then "off"
  else if (volume.div maxVolume).gt (QDouble.round (3 / 5)) then "high"
  else if (volume.div maxVolume).gt (QDouble.round (3 / 10)) then "medium"
  else "low"

/-- The local `iconString` of `refreshIcon`. -/
def iconString (s : AudioState) : String :=
  qstringArg "audio-volume-%1-symbolic" (volumeString s)

/-- Member `SoundView::refreshIcon`: the icon named `iconString` is looked up
in the theme and set on the icon button. -/
def refreshIcon (s : AudioState) (v : SoundView) : SoundView :=
  { v with icon := iconString s }

/-- The text `refreshTips` puts on the label once it is past its guard. -/
def tipsString (s : AudioState) : String :=
  if !s.existActiveOutputDevice then
    tr "No output devices"
  else
    if s.isMute then
      tr "Mute"
    else
      let volume : Int := min 150 s.volume
      qstringArg (tr "Volume %1") (qstringNumber volume ++ "%")

/-- Member `SoundView::refreshTips`. -/
def refreshTips (s : AudioState) (force : Bool) (v : SoundView) : SoundView :=
  if !force && !v.tipsVisible then v
  else { v with tipsText := tipsString s }

/-- Member `SoundView::refresh`. -/
def refresh (s : AudioState) (v : SoundView) : SoundView :=
  refreshTips s false (refreshIcon s v)

/-- Member `SoundView::tipsWidget`: the label is refreshed with `force = true`
and then handed out. -/
def tipsWidget (s : AudioState) (v : SoundView) : SoundView :=
  refreshTips s true v

/-! ## Context menu -/

/-- Menu action `MUTE`. -/
def MUTE : String := "mute"

/-- Menu action `SETTINGS`. -/
def SETTINGS : String := "settings"

/-- One entry of the menu: the map with the keys `itemId`, `itemText` and
`isActive` that `contextMenu` fills in. -/
structure MenuItem where
  itemId : String
  itemText : String
  isActive : Bool
deriving DecidableEq, Repr

/-- The map `menu` of `contextMenu`, before it is serialised to JSON. -/
structure Menu where
  items : List MenuItem
  checkableMenu : Bool
  singleCheck : Bool
deriving DecidableEq, Repr

/-- Member `SoundView::contextMenu`.  `fileExists` is `QFile::exists` on the
file system at the time of the call; the path `ICBC_CONF_FILE` is a constant of
a header that is not part of the sources and is taken as a parameter. -/
def contextMenu (s : AudioState) (fileExists : String → Bool) (ICBC_CONF_FILE : String) :
    Menu :=
  let items : List MenuItem := []
  let openItem : MenuItem :=
    if !s.existActiveOutputDevice then
      { itemId := MUTE, itemText := tr "Unmute", isActive := false }
    else
      { itemId := MUTE,
        itemText := if s.isMute then tr "Unmute" else tr "Mute",
        isActive := true }
  let items := items ++ [openItem]
  let items :=
    if !fileExists ICBC_CONF_FILE then
      let settings : MenuItem :=
        { itemId := SETTINGS, itemText := tr "Sound settings", isActive := true }
      items ++ [settings]
    else items
  { items := items, checkableMenu := false, singleCheck := false }

/-- What the view sends to the outside. -/
inductive Effect where
  /-- The call `SoundController::ref().SetMuteQueued(mute)`. -/
  | SetMuteQueued (mute : Bool)
  /-- A `DDBusSender` method call with string arguments. -/
  | busCall (service iface path method : String) (args : List String)
  /-- The signal `requestHideApplet`. -/
  | requestHideApplet
deriving DecidableEq, Repr

/-- Member `SoundView::invokeMenuItem`: the commands it issues, in order. -/
def invokeMenuItem (s : AudioState) (menuId : String) (checked : Bool) : List Effect :=
  let _ := checked
  if menuId = MUTE then
    [Effect.SetMuteQueued (!s.isMute)]
  else if menuId = SETTINGS then
    [Effect.busCall "org.deepin.dde.ControlCenter1" "org.deepin.dde.ControlCenter1"
        "/org/deepin/dde/ControlCenter1" "ShowModule" ["sound"],
      Effect.requestHideApplet]
  else []

/-! ## Resize -/

/-- Modelled from the spec: the dock edge the panel sits on, `Dock::Position`
of `constants.h`, a header that is not part of the sources.  The spec names the
four placements top, bottom, left and right. -/
inductive Position where
  | Top
  | Right
  | Bottom
  | Left
deriving DecidableEq, Repr

/-- Qt constant `QWIDGETSIZE_MAX`, `(1 << 24) - 1`: no limit. -/
def QWIDGETSIZE_MAX : Int := 16777215

/-- The call `setMaximumWidth(w)` of `QWidget`, for `w` between 0 and
`QWIDGETSIZE_MAX` (the range of a widget dimension): the maximum width is `w`. -/
def setMaximumWidth (w : Int) (v : SoundView) : SoundView :=
  { v with maximumWidth := w }

/-- The call `setMaximumHeight(h)` of `QWidget`, for `h` between 0 and
`QWIDGETSIZE_MAX`: the maximum height is `h`. -/
def setMaximumHeight (h : Int) (v : SoundView) : SoundView :=
  { v with maximumHeight := h }

/-- Member `SoundView::resizeEvent`; `position` is the application property
`PROP_POSITION`.  The base-class handler does nothing. -/
def resizeEvent (s : AudioState) (position : Position) (v : SoundView) : SoundView :=
  let v1 :=
    if position = Position.Bottom ∨ position = Position.Top then
      setMaximumHeight QWIDGETSIZE_MAX (setMaximumWidth v.height v)
    else
      setMaximumWidth QWIDGETSIZE_MAX (setMaximumHeight v.width v)
  refreshIcon s v1

/-! ## Lemmas on the helpers -/

theorem qstringArg_volume (a : String) : qstringArg "Volume %1" a = "Volume " ++ a := by
  apply String.ext
  rw [String.data_append]
  show "Volume ".data ++ (a.data ++ []) = "Volume ".data ++ a.data
  rw [List.append_nil]

theorem qstringArg_icon (a : String) :
    qstringArg "audio-volume-%1-symbolic" a = "audio-volume-" ++ a ++ "-symbolic" := by
  apply String.ext
  rw [String.data_append, String.data_append]
  show "audio-volume-".data ++ (a.data ++ "-symbolic".data) = _
  rw [List.append_assoc]

theorem toInt_ofInt (n : Int) : (QDouble.ofInt n).toInt = some n := by
  simp [QDouble.ofInt, QDouble.toInt]

theorem iconMute_eq (s : AudioState) :
    iconMute s = (s.isMute || !s.existActiveOutputDevice) := by
  cases hd : s.existActiveOutputDevice <;> cases hm : s.isMute <;> simp [iconMute, hd, hm]

theorem volumeString_muted (s : AudioState) (h : iconMute s = true) :
    volumeString s = "muted" := by
  simp [volumeString, h]

theorem volumeString_unmuted_mem (s : AudioState) (h : iconMute s = false) :
    volumeString s = "off" ∨ volumeString s = "high" ∨ volumeString s = "medium" ∨
      volumeString s = "low" := by
  unfold volumeString
  simp only [h, Bool.false_eq_true, if_false]
  split_ifs <;> simp

/-! ### Rounding -/

theorem roundHalfEven_err (q : ℚ) : |(roundHalfEven q : ℚ) - q| ≤ 1 / 2 := by
  have h0 : (0 : ℚ) ≤ q - ⌊q⌋ := sub_nonneg.mpr (Int.floor_le q)
  have h1 : q - ⌊q⌋ < 1 := by
    have := Int.lt_floor_add_one q
    linarith
  unfold roundHalfEven
  split_ifs with ha hb hc
  · rw [abs_le]; constructor <;> linarith
  · rw [abs_le]; push_cast; constructor <;> linarith
  · rw [abs_le]; constructor <;> linarith
  · rw [abs_le]; push_cast; constructor <;> linarith

/-- In the normal range rounding moves a value by at most 2^-53 of itself. -/
theorem roundBinary64_err (q : ℚ) (hq : (2 : ℚ) ^ (-1022 : ℤ) ≤ q) :
    |roundBinary64 q - q| ≤ q / 2 ^ 53 := by
  have hpos : 0 < q := lt_of_lt_of_le (by positivity) hq
  have habs : |q| = q := abs_of_pos hpos
  have hlog : (-1022 : ℤ) ≤ Int.log 2 q :=
    (Int.zpow_le_iff_le_log (by norm_num) hpos).mp (by exact_mod_cast hq)
  have he : roundExponent q = Int.log 2 q := by
    unfold roundExponent
    rw [habs]
    exact max_eq_left hlog
  have hle : (2 : ℚ) ^ (Int.log 2 q) ≤ q := by
    have := Int.zpow_log_le_self (b := 2) (r := q) (by norm_num) hpos
    exact_mod_cast this
  unfold roundBinary64
  rw [he]
  set e := Int.log 2 q with hedef
  have hp : (0 : ℚ) < (2 : ℚ) ^ (e - 52) := by positivity
  have hmul : (2 : ℚ) ^ (52 - e) * (2 : ℚ) ^ (e - 52) = 1 := by
    rw [← zpow_add₀ (by norm_num : (2 : ℚ) ≠ 0)]
    simp
  have herr := roundHalfEven_err (q * (2 : ℚ) ^ (52 - e))
  have key : (roundHalfEven (q * (2 : ℚ) ^ (52 - e)) : ℚ) * (2 : ℚ) ^ (e - 52) - q
      = ((roundHalfEven (q * (2 : ℚ) ^ (52 - e)) : ℚ) - q * (2 : ℚ) ^ (52 - e)) *
        (2 : ℚ) ^ (e - 52) := by
    rw [sub_mul, mul_assoc, hmul, mul_one]
  rw [key, abs_mul, abs_of_pos hp]
  have h53 : (2 : ℚ) ^ (e - 52) * (1 / 2) = (2 : ℚ) ^ e / 2 ^ 53 := by
    rw [zpow_sub₀ (by norm_num : (2 : ℚ) ≠ 0)]
    norm_num
    ring
  calc |(roundHalfEven (q * (2 : ℚ) ^ (52 - e)) : ℚ) - q * (2 : ℚ) ^ (52 - e)| *
        (2 : ℚ) ^ (e - 52)
      ≤ (1 / 2) * (2 : ℚ) ^ (e - 52) := mul_le_mul_of_nonneg_right herr (le_of_lt hp)
    _ = (2 : ℚ) ^ e / 2 ^ 53 := by rw [mul_comm, h53]
    _ ≤ q / 2 ^ 53 := by
        apply div_le_div_of_nonneg_right hle
        positivity

theorem zpow_neg1022_le (q : ℚ) (h : 1 / 2 ^ 31 ≤ q) : (2 : ℚ) ^ (-1022 : ℤ) ≤ q := by
  have : (2 : ℚ) ^ (-1022 : ℤ) ≤ 1 / 2 ^ 31 := by
    rw [zpow_neg, zpow_ofNat, ← one_div]
    apply one_div_le_one_div_of_le (by positivity)
    exact pow_le_pow_right₀ (by norm_num) (by norm_num)
  exact le_trans this h

theorem round_finite (q : ℚ) (hlo : (2 : ℚ) ^ (-1022 : ℤ) ≤ q) (hhi : q ≤ 2 ^ 1023) :
    QDouble.round q = QDouble.finite (roundBinary64 q) := by
  have hpos : 0 < q := lt_of_lt_of_le (by positivity) hlo
  have herr := abs_le.mp (roundBinary64_err q hlo)
  have hsmall : q / 2 ^ 53 < q := div_lt_self hpos (by norm_num)
  have hnn : 0 ≤ q / 2 ^ 53 := by positivity
  have h1024 : (2 : ℚ) ^ 1024 = 2 * 2 ^ 1023 := by rw [pow_succ]; ring
  have hp1024 : (0 : ℚ) < 2 ^ 1024 := by positivity
  unfold QDouble.round
  rw [if_neg, if_neg]
  · intro h
    linarith [herr.1]
  · intro h
    rw [h1024] at h
    linarith [herr.2]

theorem roundBinary64_lt (x y : ℚ) (hx : (2 : ℚ) ^ (-1022 : ℤ) ≤ x) (hlt : x < y)
    (hgap : (x + y) / 2 ^ 53 < y - x) : roundBinary64 x < roundBinary64 y := by
  have hy : (2 : ℚ) ^ (-1022 : ℤ) ≤ y := le_trans hx (le_of_lt hlt)
  have ex := abs_le.mp (roundBinary64_err x hx)
  have ey := abs_le.mp (roundBinary64_err y hy)
  have hsplit : (x + y) / 2 ^ 53 = x / 2 ^ 53 + y / 2 ^ 53 := by ring
  rw [hsplit] at hgap
  linarith [ex.2, ey.1]


theorem cross_gap (p q r t : Int) (hp : 0 < p) (hq : 0 < q) (hr : 0 < r) (ht : 0 < t)
    (hsum : p * t + r * q < 2 ^ 53) (hlt : (p : ℚ) / q < (r : ℚ) / t) :
    ((p : ℚ) / q + (r : ℚ) / t) / 2 ^ 53 < (r : ℚ) / t - (p : ℚ) / q := by
  have hpq : (0 : ℚ) < p := by exact_mod_cast hp
  have hqq : (0 : ℚ) < q := by exact_mod_cast hq
  have hrq : (0 : ℚ) < r := by exact_mod_cast hr
  have htq : (0 : ℚ) < t := by exact_mod_cast ht
  have hcross : p * t < r * q := by
    rw [div_lt_div_iff₀ hqq htq] at hlt
    exact_mod_cast hlt
  have hD : (1 : ℚ) ≤ (r : ℚ) * q - (p : ℚ) * t := by
    have : p * t + 1 ≤ r * q := hcross
    have h2 : ((p * t + 1 : Int) : ℚ) ≤ ((r * q : Int) : ℚ) := by exact_mod_cast this
    push_cast at h2
    linarith
  have hS : (p : ℚ) * t + (r : ℚ) * q < 2 ^ 53 := by exact_mod_cast hsum
  have hP : (0 : ℚ) < (q : ℚ) * t := mul_pos hqq htq
  have e1 : (p : ℚ) / q + (r : ℚ) / t = ((p : ℚ) * t + (r : ℚ) * q) / ((q : ℚ) * t) := by
    field_simp
  have e2 : (r : ℚ) / t - (p : ℚ) / q = ((r : ℚ) * q - (p : ℚ) * t) / ((q : ℚ) * t) := by
    field_simp
    ring
  rw [e1, e2, div_div, div_lt_div_iff₀ (by positivity) hP]
  have h53 : (0 : ℚ) < 2 ^ 53 := by positivity
  have hlt2 : (p : ℚ) * t + (r : ℚ) * q < ((r : ℚ) * q - (p : ℚ) * t) * 2 ^ 53 := by
    nlinarith
  calc ((p : ℚ) * t + (r : ℚ) * q) * ((q : ℚ) * t)
      < (((r : ℚ) * q - (p : ℚ) * t) * 2 ^ 53) * ((q : ℚ) * t) :=
        mul_lt_mul_of_pos_right hlt2 hP
    _ = ((r : ℚ) * q - (p : ℚ) * t) * ((q : ℚ) * t * 2 ^ 53) := by ring

theorem gt_round_div (v m a b : Int) (hv : 0 < v) (hvmax : v ≤ 2147483647)
    (hm : 0 < m) (hmmax : m ≤ 2147483647) (ha : 0 < a) (hamax : a ≤ 10)
    (hb : 0 < b) (hbmax : b ≤ 10) :
    ((QDouble.ofInt v).div (QDouble.ofInt m)).gt (QDouble.round ((a : ℚ) / b)) =
      decide ((a : ℚ) / b < (v : ℚ) / m) := by
  have hvq : (0 : ℚ) < v := by exact_mod_cast hv
  have hmq : (0 : ℚ) < m := by exact_mod_cast hm
  have haq : (0 : ℚ) < a := by exact_mod_cast ha
  have hbq : (0 : ℚ) < b := by exact_mod_cast hb
  have hvq1 : (1 : ℚ) ≤ v := by exact_mod_cast hv
  have haq1 : (1 : ℚ) ≤ a := by exact_mod_cast ha
  have hvqm : (v : ℚ) ≤ 2147483647 := by exact_mod_cast hvmax
  have hmqm : (m : ℚ) ≤ 2147483647 := by exact_mod_cast hmmax
  have haqm : (a : ℚ) ≤ 10 := by exact_mod_cast hamax
  have hbqm : (b : ℚ) ≤ 10 := by exact_mod_cast hbmax
  have hbig : (2147483647 : ℚ) ≤ 2 ^ 1023 := by
    have h31 : (2147483647 : ℚ) ≤ 2 ^ 31 := by norm_num
    exact le_trans h31 (pow_le_pow_right₀ (by norm_num) (by norm_num))
  have hx_lo : (1 : ℚ) / 2 ^ 31 ≤ (v : ℚ) / m := by
    rw [div_le_div_iff₀ (by positivity) hmq]
    have : (m : ℚ) ≤ 2 ^ 31 := le_trans hmqm (by norm_num)
    nlinarith
  have ht_lo : (1 : ℚ) / 2 ^ 31 ≤ (a : ℚ) / b := by
    rw [div_le_div_iff₀ (by positivity) hbq]
    have : (b : ℚ) ≤ 2 ^ 31 := le_trans hbqm (by norm_num)
    nlinarith
  have hx_hi : (v : ℚ) / m ≤ 2 ^ 1023 := by
    rw [div_le_iff₀ hmq]
    have : (1 : ℚ) ≤ m := by exact_mod_cast hm
    have h0 : (0 : ℚ) ≤ 2 ^ 1023 := by positivity
    nlinarith
  have ht_hi : (a : ℚ) / b ≤ 2 ^ 1023 := by
    rw [div_le_iff₀ hbq]
    have : (1 : ℚ) ≤ b := by exact_mod_cast hb
    have h0 : (0 : ℚ) ≤ 2 ^ 1023 := by positivity
    nlinarith
  have hx_n := zpow_neg1022_le _ hx_lo
  have ht_n := zpow_neg1022_le _ ht_lo
  have hmne : (m : ℚ) ≠ 0 := ne_of_gt hmq
  have hdiv : (QDouble.ofInt v).div (QDouble.ofInt m) =
      QDouble.finite (roundBinary64 ((v : ℚ) / m)) := by
    simp only [QDouble.ofInt, QDouble.div, if_neg hmne]
    exact round_finite _ hx_n hx_hi
  rw [hdiv, round_finite _ ht_n ht_hi]
  simp only [QDouble.gt]
  rw [decide_eq_decide]
  have hsum1 : a * m + v * b < 2 ^ 53 := by
    have h1 : a * m ≤ 10 * 2147483647 := mul_le_mul hamax hmmax (le_of_lt hm) (by norm_num)
    have h2 : v * b ≤ 2147483647 * 10 := mul_le_mul hvmax hbmax (le_of_lt hb) (by norm_num)
    have h3 : (10 * 2147483647 + 2147483647 * 10 : Int) < 2 ^ 53 := by norm_num
    linarith
  have hsum2 : v * b + a * m < 2 ^ 53 := by linarith
  constructor
  · intro hr
    by_contra hnot
    rcases lt_or_eq_of_le (not_lt.mp hnot) with hlt | heq
    · have := roundBinary64_lt _ _ hx_n hlt (cross_gap v m a b hv hm ha hb hsum2 hlt)
      exact absurd hr (not_lt.mpr (le_of_lt this))
    · rw [heq] at hr
      exact lt_irrefl _ hr
  · intro hlt
    exact roundBinary64_lt _ _ ht_n hlt (cross_gap a b v m ha hb hv hm hsum1 hlt)

/-- With mute off and both values in the positive range of an `int`, the rounded
comparisons of `refreshIcon` decide as the exact ratio does. -/
theorem volumeString_unmuted (s : AudioState) (h : iconMute s = false)
    (hvol : 0 ≤ s.volume) (hvolmax : s.volume ≤ INT_MAX)
    (hmax : 0 < s.maxVolumeUI) (hmaxmax : s.maxVolumeUI ≤ INT_MAX) :
    volumeString s =
      if s.volume = 0 then "off"
      else if (3 : ℚ) / 5 < (s.volume : ℚ) / (s.maxVolumeUI : ℚ) then "high"
      else if (3 : ℚ) / 10 < (s.volume : ℚ) / (s.maxVolumeUI : ℚ) then "medium"
      else "low" := by
  unfold volumeString
  simp only [h, toInt_ofInt, Bool.false_eq_true, if_false]
  by_cases hv : s.volume = 0
  · simp [hv]
  · have hpos : 0 < s.volume := by omega
    have g5 := gt_round_div s.volume s.maxVolumeUI 3 5 hpos hvolmax hmax hmaxmax
      (by norm_num) (by norm_num) (by norm_num) (by norm_num)
    have g10 := gt_round_div s.volume s.maxVolumeUI 3 10 hpos hvolmax hmax hmaxmax
      (by norm_num) (by norm_num) (by norm_num) (by norm_num)
    push_cast at g5 g10
    rw [g5, g10]
    simp [hv]

/-! ### Categories and texts -/

theorem volumeString_eq_muted_iff (s : AudioState) :
    volumeString s = "muted" ↔ iconMute s = true := by
  constructor
  · intro h
    by_contra hne
    have hf : iconMute s = false := by simpa using hne
    rcases volumeString_unmuted_mem s hf with h1 | h1 | h1 | h1 <;>
      · rw [h1] at h
        revert h
        decide
  · exact volumeString_muted s

theorem iconString_eq (s : AudioState) :
    iconString s = "audio-volume-" ++ volumeString s ++ "-symbolic" :=
  qstringArg_icon (volumeString s)

theorem tipsString_eq (s : AudioState) :
    tipsString s =
      if s.existActiveOutputDevice = false then "No output devices"
      else if s.isMute = true then "Mute"
      else "Volume " ++ toString (min 150 s.volume) ++ "%" := by
  unfold tipsString
  cases hd : s.existActiveOutputDevice <;> cases hm : s.isMute <;>
    simp [tr, qstringNumber, qstringArg_volume, String.append_assoc]

theorem volume_text_ne_mute (a : String) : "Volume " ++ a ≠ "Mute" := by
  intro h
  have h2 := congrArg String.data h
  rw [String.data_append] at h2
  have h3 : some 'V' = some 'M' := congrArg List.head? h2
  exact absurd h3 (by decide)

theorem volume_text_ne_no_device (a : String) : "Volume " ++ a ≠ "No output devices" := by
  intro h
  have h2 := congrArg String.data h
  rw [String.data_append] at h2
  have h3 : some 'V' = some 'N' := congrArg List.head? h2
  exact absurd h3 (by decide)


/-! ## Icon category -/

/-- C1: with an active output device, mute off, and `int` values `volume ≥ 0`
and `maxVolume > 0`, the icon category is "off" for volume 0 and otherwise
follows the exact ratio `r = volume / maxVolume`: "high" for `r > 3/5`,
"medium" for `3/10 < r ≤ 3/5`, "low" for `0 < r ≤ 3/10`; the ratio of a
non-zero volume is positive, so the cases cover every state, and the icon set
is "audio-volume-<category>-symbolic".  The code compares the rounded quotient
with the doubles `0.6` and `0.3`; for `int` operands that decides as the exact
ratio against 3/5 and 3/10 does. -/
theorem refreshIcon_category_by_ratio (s : AudioState) (v : SoundView)
    (hvol : 0 ≤ s.volume) (hvolmax : s.volume ≤ INT_MAX)
    (hmax : 0 < s.maxVolumeUI) (hmaxmax : s.maxVolumeUI ≤ INT_MAX)
    (hmute : s.isMute = false) (hdev : s.existActiveOutputDevice = true) :
    (s.volume = 0 → volumeString s = "off") ∧
    (s.volume ≠ 0 → (3 : ℚ) / 5 < (s.volume : ℚ) / (s.maxVolumeUI : ℚ) →
      volumeString s = "high") ∧
    (s.volume ≠ 0 → (3 : ℚ) / 10 < (s.volume : ℚ) / (s.maxVolumeUI : ℚ) →
      (s.volume : ℚ) / (s.maxVolumeUI : ℚ) ≤ (3 : ℚ) / 5 → volumeString s = "medium") ∧
    (s.volume ≠ 0 → (0 : ℚ) < (s.volume : ℚ) / (s.maxVolumeUI : ℚ) →
      (s.volume : ℚ) / (s.maxVolumeUI : ℚ) ≤ (3 : ℚ) / 10 → volumeString s = "low") ∧
    (s.volume ≠ 0 → (0 : ℚ) < (s.volume : ℚ) / (s.maxVolumeUI : ℚ)) ∧
    (refreshIcon s v).icon = "audio-volume-" ++ volumeString s ++ "-symbolic" := by
  have hm : iconMute s = false := by simp [iconMute, hmute, hdev]
  have hform := volumeString_unmuted s hm hvol hvolmax hmax hmaxmax
  refine ⟨?_, ?_, ?_, ?_, ?_, ?_⟩
  · intro h0
    rw [hform, if_pos h0]
  · intro h0 hr
    rw [hform, if_neg h0, if_pos hr]
  · intro h0 hlo hhi
    rw [hform, if_neg h0, if_neg (not_lt.mpr hhi), if_pos hlo]
  · intro h0 _ hhi
    have h35 : ¬ (3 : ℚ) / 5 < (s.volume : ℚ) / (s.maxVolumeUI : ℚ) := by
      intro h
      have : (3 : ℚ) / 5 < 3 / 10 := lt_of_lt_of_le h hhi
      norm_num at this
    rw [hform, if_neg h0, if_neg h35, if_neg (not_lt.mpr hhi)]
  · intro h0
    have hpos : (0 : ℚ) < (s.volume : ℚ) := by
      have : 0 < s.volume := by omega
      exact_mod_cast this
    have hmpos : (0 : ℚ) < (s.maxVolumeUI : ℚ) := by exact_mod_cast hmax
    exact div_pos hpos hmpos
  · exact iconString_eq s

/-- Witness of C1: volume 45 of 100, unmuted, with a device, is "medium". -/
theorem refreshIcon_category_by_ratio_witness :
    volumeString ⟨45, 100, false, true⟩ = "medium" :=
  (refreshIcon_category_by_ratio ⟨45, 100, false, true⟩ ⟨"", false, "", 36, 36, 36, 36⟩
    (by decide) (by decide) (by decide) (by decide) rfl rfl).2.2.1
    (by decide) (by norm_num) (by norm_num)

/-- C2: the icon category is "muted" exactly when the mute flag is set or no
active output device exists, whatever volume and maxVolume are; the icon set is
then "audio-volume-muted-symbolic", and it is that icon in no other state. -/
theorem refreshIcon_muted_iff (s : AudioState) (v : SoundView) :
    (volumeString s = "muted" ↔ (s.isMute = true ∨ s.existActiveOutputDevice = false)) ∧
    ((refreshIcon s v).icon = "audio-volume-muted-symbolic" ↔
      (s.isMute = true ∨ s.existActiveOutputDevice = false)) := by
  have hiff : iconMute s = true ↔ (s.isMute = true ∨ s.existActiveOutputDevice = false) := by
    rw [iconMute_eq]
    cases s.isMute <;> cases s.existActiveOutputDevice <;> simp
  refine ⟨(volumeString_eq_muted_iff s).trans hiff, ?_⟩
  rw [← hiff]
  show iconString s = _ ↔ _
  rw [iconString_eq]
  constructor
  · intro h
    by_contra hne
    have hf : iconMute s = false := by simpa using hne
    rcases volumeString_unmuted_mem s hf with h1 | h1 | h1 | h1 <;>
      · rw [h1] at h
        revert h
        decide
  · intro h
    rw [volumeString_muted s h]
    decide

/-! ## Tooltip -/

/-- C3: a forced tooltip refresh, and so `tipsWidget`, sets the text to
"No output devices" when there is no active output device, else to "Mute" when
the mute flag is set, else to "Volume N%" with N the decimal form of
`min 150 volume`; volume 45 unmuted gives "Volume 45%", and a muted state with
volume 90 gives "Mute". -/
theorem refreshTips_forced_text (s : AudioState) (v : SoundView) :
    ((refreshTips s true v).tipsText =
      if s.existActiveOutputDevice = false then "No output devices"
      else if s.isMute = true then "Mute"
      else "Volume " ++ toString (min 150 s.volume) ++ "%") ∧
    (tipsWidget s v = refreshTips s true v) ∧
    (tipsWidget ⟨45, s.maxVolumeUI, false, true⟩ v).tipsText = "Volume 45%" ∧
    (tipsWidget ⟨90, s.maxVolumeUI, true, true⟩ v).tipsText = "Mute" := by
  have h : ∀ t : AudioState, (refreshTips t true v).tipsText = tipsString t := by
    intro t
    simp [refreshTips]
  refine ⟨?_, rfl, ?_, ?_⟩
  · rw [h, tipsString_eq]
  · show (refreshTips _ true v).tipsText = _
    rw [h, tipsString_eq]
    dsimp only
    decide
  · show (refreshTips _ true v).tipsText = _
    rw [h, tipsString_eq]
    dsimp only
    decide

/-- C10: `refreshTips force` changes the tooltip text only when `force` is set
or the label is visible; with `force = false` and a hidden label the widget is
left as it was, so `refresh` leaves the text of a hidden label alone, while
`tipsWidget` always writes the text of the current state. -/
theorem refreshTips_guard (s : AudioState) (force : Bool) (v : SoundView) :
    ((refreshTips s force v).tipsText ≠ v.tipsText → (force = true ∨ v.tipsVisible = true)) ∧
    (v.tipsVisible = false → refreshTips s false v = v) ∧
    (v.tipsVisible = false → (refresh s v).tipsText = v.tipsText) ∧
    (tipsWidget s v).tipsText = tipsString s := by
  refine ⟨?_, ?_, ?_, ?_⟩
  · intro hne
    by_contra hcon
    have hf : force = false := by
      cases force
      · rfl
      · exact absurd (Or.inl rfl) hcon
    have hv : v.tipsVisible = false := by
      cases hvis : v.tipsVisible
      · rfl
      · exact absurd (Or.inr hvis) hcon
    apply hne
    simp [refreshTips, hf, hv]
  · intro hv
    simp [refreshTips, hv]
  · intro hv
    simp [refresh, refreshTips, refreshIcon, hv]
  · simp [tipsWidget, refreshTips]

/-- Witness of C10: a hidden label with text "old" keeps it through `refresh`,
and a forced refresh, which does change it, has `force` set. -/
theorem refreshTips_guard_witness :
    (refresh ⟨45, 100, false, true⟩ ⟨"old", false, "", 36, 36, 36, 36⟩).tipsText = "old" ∧
    ((true = true) ∨ (false = true)) :=
  ⟨(refreshTips_guard ⟨45, 100, false, true⟩ false ⟨"old", false, "", 36, 36, 36, 36⟩).2.2.1 rfl,
    (refreshTips_guard ⟨45, 100, false, true⟩ true ⟨"old", false, "", 36, 36, 36, 36⟩).1
      (by decide)⟩

/-- C9: icon and tooltip agree on mutedness: the icon set by `refreshIcon` is
the muted one exactly when a forced `refreshTips` writes "No output devices" or
"Mute", and the category is one of off, low, medium, high exactly when the text
is "Volume N%" for a number N. -/
theorem icon_muted_iff_tooltip_muted (s : AudioState) (v w : SoundView) :
    ((refreshIcon s v).icon = "audio-volume-muted-symbolic" ↔
      ((refreshTips s true w).tipsText = "No output devices" ∨
        (refreshTips s true w).tipsText = "Mute")) ∧
    (volumeString s = "muted" ↔
      ((refreshTips s true w).tipsText = "No output devices" ∨
        (refreshTips s true w).tipsText = "Mute")) ∧
    ((volumeString s = "off" ∨ volumeString s = "low" ∨ volumeString s = "medium" ∨
        volumeString s = "high") ↔
      ∃ n : Int, (refreshTips s true w).tipsText = "Volume " ++ toString n ++ "%") := by
  have htext : (refreshTips s true w).tipsText = tipsString s := by simp [refreshTips]
  have hicon : (refreshIcon s v).icon = "audio-volume-" ++ volumeString s ++ "-symbolic" :=
    iconString_eq s
  rw [htext, hicon, tipsString_eq]
  by_cases hmu : iconMute s = true
  · have hcat := volumeString_muted s hmu
    have hst : s.existActiveOutputDevice = false ∨
        (s.existActiveOutputDevice = true ∧ s.isMute = true) := by
      rw [iconMute_eq] at hmu
      revert hmu
      cases s.existActiveOutputDevice <;> cases s.isMute <;> simp
    have hno : ∀ n : Int, "No output devices" ≠ "Volume " ++ toString n ++ "%" := by
      intro n h
      rw [String.append_assoc] at h
      exact volume_text_ne_no_device _ h.symm
    have hnm : ∀ n : Int, "Mute" ≠ "Volume " ++ toString n ++ "%" := by
      intro n h
      rw [String.append_assoc] at h
      exact volume_text_ne_mute _ h.symm
    rw [hcat]
    rcases hst with hd | ⟨hd, hm⟩
    · rw [if_pos hd]
      refine ⟨by decide, by decide, ?_⟩
      constructor
      · intro h
        exact absurd h (by decide)
      · rintro ⟨n, hn⟩
        exact absurd hn (hno n)
    · rw [if_neg (by simp [hd]), if_pos hm]
      refine ⟨by decide, by decide, ?_⟩
      constructor
      · intro h
        exact absurd h (by decide)
      · rintro ⟨n, hn⟩
        exact absurd hn (hnm n)
  · have hf : iconMute s = false := by simpa using hmu
    have hd : s.existActiveOutputDevice = true := by
      rw [iconMute_eq] at hf
      revert hf
      cases s.existActiveOutputDevice <;> cases s.isMute <;> simp
    have hm : s.isMute = false := by
      rw [iconMute_eq] at hf
      revert hf
      cases s.existActiveOutputDevice <;> cases s.isMute <;> simp
    rw [if_neg (by simp [hd]), if_neg (by simp [hm])]
    have hv1 : "Volume " ++ toString (min 150 s.volume) ++ "%" ≠ "No output devices" := by
      rw [String.append_assoc]
      exact volume_text_ne_no_device _
    have hv2 : "Volume " ++ toString (min 150 s.volume) ++ "%" ≠ "Mute" := by
      rw [String.append_assoc]
      exact volume_text_ne_mute _
    have hcases := volumeString_unmuted_mem s hf
    refine ⟨?_, ?_, ?_⟩
    · constructor
      · intro h
        exfalso
        rcases hcases with h1 | h1 | h1 | h1 <;>
          · rw [h1] at h
            revert h
            decide
      · rintro (h | h)
        · exact absurd h hv1
        · exact absurd h hv2
    · constructor
      · intro h
        exact absurd ((volumeString_eq_muted_iff s).mp h) hmu
      · rintro (h | h)
        · exact absurd h hv1
        · exact absurd h hv2
    · constructor
      · intro _
        exact ⟨min 150 s.volume, rfl⟩
      · intro _
        rcases hcases with h1 | h1 | h1 | h1
        · exact Or.inl h1
        · exact Or.inr (Or.inr (Or.inr h1))
        · exact Or.inr (Or.inr (Or.inl h1))
        · exact Or.inr (Or.inl h1)

/-! ## Context menu -/

theorem contextMenu_items (s : AudioState) (fileExists : String → Bool) (conf : String) :
    (contextMenu s fileExists conf).items =
      ⟨"mute", if s.existActiveOutputDevice && !s.isMute then "Mute" else "Unmute",
          s.existActiveOutputDevice⟩ ::
        (if fileExists conf then [] else [⟨"settings", "Sound settings", true⟩]) := by
  cases hd : s.existActiveOutputDevice <;> cases hm : s.isMute <;>
    cases hf : fileExists conf <;>
    simp [contextMenu, MUTE, SETTINGS, tr, hd, hm, hf]

/-- C4: the item list of `contextMenu` always has an entry with itemId "mute"
whose isActive flag is the value of `existActiveOutputDevice()`, and has an
entry with itemId "settings" exactly when the file `ICBC_CONF_FILE` does not
exist. -/
theorem contextMenu_mute_and_settings (s : AudioState) (fileExists : String → Bool)
    (conf : String) :
    (∃ e ∈ (contextMenu s fileExists conf).items,
      e.itemId = "mute" ∧ e.isActive = s.existActiveOutputDevice) ∧
    ((∃ e ∈ (contextMenu s fileExists conf).items, e.itemId = "settings") ↔
      fileExists conf = false) := by
  rw [contextMenu_items]
  constructor
  · exact ⟨_, List.mem_cons_self _ _, rfl, rfl⟩
  · cases hf : fileExists conf
    · simp
    · simp

/-- C7: the menu of `contextMenu` has one entry or two; the first is the entry
with itemId "mute"; what follows it is nothing when the configuration file
exists and otherwise the single entry "settings" with text "Sound settings" and
isActive true; checkableMenu and singleCheck are false. -/
theorem contextMenu_shape (s : AudioState) (fileExists : String → Bool) (conf : String) :
    ((contextMenu s fileExists conf).items.length = 1 ∨
      (contextMenu s fileExists conf).items.length = 2) ∧
    ((contextMenu s fileExists conf).items.head?.map MenuItem.itemId = some "mute") ∧
    ((contextMenu s fileExists conf).items.tail =
      if fileExists conf then [] else [⟨"settings", "Sound settings", true⟩]) ∧
    (contextMenu s fileExists conf).checkableMenu = false ∧
    (contextMenu s fileExists conf).singleCheck = false := by
  refine ⟨?_, ?_, ?_, rfl, rfl⟩
  · rw [contextMenu_items]
    cases fileExists conf
    · exact Or.inr rfl
    · exact Or.inl rfl
  · rw [contextMenu_items]
    rfl
  · rw [contextMenu_items]
    rfl

/-- C8: the mute entry is the first entry of the menu; its label is "Mute"
exactly when an active output device exists and the mute flag is off, and
"Unmute" exactly when the state is muted or has no output device; the entry is
inactive whenever there is no output device. -/
theorem contextMenu_mute_label (s : AudioState) (fileExists : String → Bool) (conf : String) :
    ∃ e : MenuItem, (contextMenu s fileExists conf).items.head? = some e ∧
      e.itemId = "mute" ∧
      (e.itemText = "Mute" ↔ (s.existActiveOutputDevice = true ∧ s.isMute = false)) ∧
      (e.itemText = "Unmute" ↔ (s.isMute = true ∨ s.existActiveOutputDevice = false)) ∧
      (s.existActiveOutputDevice = false → e.isActive = false) := by
  refine ⟨_, by rw [contextMenu_items]; rfl, rfl, ?_, ?_, ?_⟩
  · cases s.existActiveOutputDevice <;> cases s.isMute <;> decide
  · cases s.existActiveOutputDevice <;> cases s.isMute <;> decide
  · intro h
    exact h

/-- Witness of C8: without an output device the entry reads "Unmute" and is
inactive, also when the mute flag is off. -/
theorem contextMenu_mute_label_witness :
    ∃ e : MenuItem,
      (contextMenu ⟨45, 100, false, false⟩ (fun _ => false) "/etc/icbc.conf").items.head? =
        some e ∧ e.itemText = "Unmute" ∧ e.isActive = false := by
  obtain ⟨e, he, _, _, hun, hact⟩ :=
    contextMenu_mute_label ⟨45, 100, false, false⟩ (fun _ => false) "/etc/icbc.conf"
  exact ⟨e, he, hun.mpr (Or.inr rfl), hact rfl⟩

/-- C5: `invokeMenuItem` with "mute" issues the single command set-mute with
the negation of the current mute flag and nothing else; with "settings" it
issues the bus call ShowModule("sound") to the control center followed by the
signal requestHideApplet and no set-mute command; the argument `checked` has no
influence on what is issued, for any menu id. -/
theorem invokeMenuItem_effects (s : AudioState) (checked other : Bool) (menuId : String) :
    invokeMenuItem s "mute" checked = [Effect.SetMuteQueued (!s.isMute)] ∧
    invokeMenuItem s "settings" checked =
      [Effect.busCall "org.deepin.dde.ControlCenter1" "org.deepin.dde.ControlCenter1"
          "/org/deepin/dde/ControlCenter1" "ShowModule" ["sound"],
        Effect.requestHideApplet] ∧
    invokeMenuItem s menuId checked = invokeMenuItem s menuId other := by
  refine ⟨?_, ?_, rfl⟩
  · simp [invokeMenuItem, MUTE]
  · simp [invokeMenuItem, MUTE, SETTINGS]

/-! ## Resize -/

/-- C6: `resizeEvent` at the top or the bottom edge sets the maximum width to
the height and the maximum height to QWIDGETSIZE_MAX; at the left or the right
edge it sets the maximum height to the width and the maximum width to
QWIDGETSIZE_MAX; at every edge the icon of the result is the one `refreshIcon`
chooses for the current state. -/
theorem resizeEvent_constraints (s : AudioState) (v : SoundView) :
    ((resizeEvent s Position.Top v).maximumWidth = v.height ∧
      (resizeEvent s Position.Top v).maximumHeight = QWIDGETSIZE_MAX) ∧
    ((resizeEvent s Position.Bottom v).maximumWidth = v.height ∧
      (resizeEvent s Position.Bottom v).maximumHeight = QWIDGETSIZE_MAX) ∧
    ((resizeEvent s Position.Left v).maximumHeight = v.width ∧
      (resizeEvent s Position.Left v).maximumWidth = QWIDGETSIZE_MAX) ∧
    ((resizeEvent s Position.Right v).maximumHeight = v.width ∧
      (resizeEvent s Position.Right v).maximumWidth = QWIDGETSIZE_MAX) ∧
    (∀ position : Position,
      (resizeEvent s position v).icon = iconString s ∧
      (resizeEvent s position v).icon = (refreshIcon s v).icon ∧
      ∃ v1 : SoundView, resizeEvent s position v = refreshIcon s v1) := by
  refine ⟨⟨rfl, rfl⟩, ⟨rfl, rfl⟩, ⟨rfl, rfl⟩, ⟨rfl, rfl⟩, ?_⟩
  intro position
  exact ⟨rfl, rfl, _, rfl⟩

end SoundViewSpec
